import Mathlib

/-!
A shallow embedding of the SwitchGen model download manager, translated from
`src/switchgen/core/downloader.py` and `src/switchgen/core/models.py`.

Python machine integers are modelled as `ℤ` (or `ℕ` where the source value is
a count), Python floats as `ℚ`, Python strings as `String`.  The filesystem is
modelled as a snapshot of the sets of regular files and directories, with
paths as component lists.  Fallible Python code is modelled with `Except`:
an `Except.error` value means an exception propagated out of the function.
-/

namespace Switchgen

/-- Filesystem paths, modelled as lists of path components
(`models_dir / type_dir / filename` becomes `[models, type_dir, filename]`). -/
abbrev FsPath := List String

/-- Boolean list membership via `decide`. -/
def memB (p : FsPath) (l : List FsPath) : Bool := decide (p ∈ l)

/-- A filesystem snapshot: which paths are regular files and which are
directories.  File contents are irrelevant to every claim and are not
modelled; collisions between files and directories on `unlink`/`rename`
are outside the model. -/
structure FS where
  files : List FsPath
  dirs : List FsPath
  deriving DecidableEq

/-- `pathlib.Path.exists()`: true when the path points to an existing file
OR directory (this is exactly Python's semantics — it does not check for a
regular file). -/
def FS.existsPath (fs : FS) (p : FsPath) : Bool := memB p fs.files || memB p fs.dirs

/-- The path is present as a regular file. -/
def FS.isFile (fs : FS) (p : FsPath) : Bool := memB p fs.files

/-- A new regular file appears at `p` (used for the artifact written by the
transfer). -/
def FS.addFile (fs : FS) (p : FsPath) : FS := ⟨p :: fs.files, fs.dirs⟩

/-- `Path.unlink()`: the regular file at `p` is removed. -/
def FS.unlink (fs : FS) (p : FsPath) : FS :=
  ⟨fs.files.filter (fun q => decide (q ≠ p)), fs.dirs⟩

/-- `Path.rename(dst)` on a regular file: the file moves from `src` to
`dst` (replacing a file already at `dst`, as POSIX rename does). -/
def FS.renameFile (fs : FS) (src dst : FsPath) : FS :=
  ⟨dst :: fs.files.filter (fun q => decide (q ≠ src)), fs.dirs⟩

/-- `ModelType` enumeration from `models.py`. -/
inductive ModelType
  | CHECKPOINT
  | VAE
  | CLIP_VISION
  | TEXT_ENCODER
  | LORA
  | CONTROLNET
  | UPSCALER
  deriving DecidableEq

/-- The `.value` of each enum member (the on-disk directory name). -/
def ModelType.value : ModelType → String
  | .CHECKPOINT => "checkpoints"
  | .VAE => "vae"
  | .CLIP_VISION => "clip_vision"
  | .TEXT_ENCODER => "text_encoders"
  | .LORA => "loras"
  | .CONTROLNET => "controlnet"
  | .UPSCALER => "upscale_models"

/-- The `ModelInfo` dataclass from `models.py`. -/
structure ModelInfo where
  id : String
  name : String
  type : ModelType
  repo_id : String
  filename : String
  size_mb : ℤ
  description : String
  local_filename : Option String := none
  required_for : List String := []
  deriving DecidableEq

/-- `ModelInfo.get_local_filename`: `self.local_filename or self.filename`.
Python `or` falls back on every falsy value, so an empty-string override
also falls back to `filename`. -/
def ModelInfo.get_local_filename (m : ModelInfo) : String :=
  match m.local_filename with
  | some s => if s = "" then m.filename else s
  | none => m.filename

/-- Catalog entry `sd15_base` (no local-filename override). -/
def sd15_base : ModelInfo :=
  { id := "sd15_base"
    name := "Stable Diffusion 1.5"
    type := .CHECKPOINT
    repo_id := "stable-diffusion-v1-5/stable-diffusion-v1-5"
    filename := "v1-5-pruned-emaonly.safetensors"
    size_mb := 4270
    description := "Base SD 1.5 model for text2img, img2img"
    required_for := ["text2img", "img2img"] }

/-- Catalog entry `clip_vit_l` (with a local-filename override). -/
def clip_vit_l : ModelInfo :=
  { id := "clip_vit_l"
    name := "CLIP ViT-L/14"
    type := .CLIP_VISION
    repo_id := "openai/clip-vit-large-patch14"
    filename := "model.safetensors"
    size_mb := 890
    description := "Vision encoder for 3D workflows (stable_zero123)"
    local_filename := some "clip_vit_l.safetensors"
    required_for := ["3d"] }

/-- `is_model_installed` from `models.py`: builds
`models_dir / type.value / get_local_filename()` and calls `.exists()`. -/
def is_model_installed (m : ModelInfo) (fs : FS) (models_dir : FsPath) : Bool :=
  FS.existsPath fs ((models_dir ++ [m.type.value]) ++ [m.get_local_filename])

/-- `ModelDownloader.check_disk_space`: `free_mb >= size_mb + 500`
(500 MB fixed headroom).  `free_mb` is the float returned by
`get_disk_space_mb`, modelled as a rational. -/
def check_disk_space (free_mb : ℚ) (size_mb : ℤ) : Bool :=
  decide ((size_mb : ℚ) + 500 ≤ free_mb)

/-- Python `needle in hay` on strings: substring containment. -/
def strContains (hay needle : String) : Bool := decide (needle.data <:+: hay.data)

/-- Python `str.lower()`, per-character (the error messages inspected are
ASCII, where this agrees with Python). -/
def lowerStr (s : String) : String := ⟨s.data.map Char.toLower⟩

/-- Python `f"{x:.0f}"`: round to the nearest integer, ties to even, and
render in decimal. -/
def ratRound0 (q : ℚ) : ℤ :=
  let fl : ℤ := Int.ediv q.num (q.den : ℤ)
  let frac : ℚ := q - (fl : ℚ)
  if frac < 1/2 then fl
  else if (1 : ℚ)/2 < frac then fl + 1
  else if Int.emod fl 2 = 0 then fl else fl + 1

def fmtDot0 (q : ℚ) : String := toString (ratRound0 q)

/-- Guidance string for HTTP 401 / unauthorized failures. -/
def authMsg : String :=
  "Authentication required. This model may need a HuggingFace account."

/-- Guidance string for HTTP 403 / forbidden failures. -/
def accessMsg : String :=
  "Access denied. You may need to accept the model's license on HuggingFace."

/-- Guidance string for connection / timeout failures. -/
def netMsg : String :=
  "Network error. Check your internet connection and try again."

/-- Guidance string for DNS / host-resolution failures. -/
def dnsMsg : String :=
  "Could not connect to HuggingFace. Check your internet connection."

/-- Error text for the `EntryNotFoundError` branch. -/
def notFoundMsg : String :=
  "Model not found on HuggingFace. It may have been moved or removed."

/-- Error text for the missing-backend branch. -/
def hfMissingMsg : String :=
  "huggingface_hub not installed. Run: pip install huggingface_hub"

/-- The generic `except Exception` branch of `ModelDownloader.download`
(lines 290–306): sniff the raw error text and map to guidance, falling
through to the raw text when nothing matches. -/
def classify_error (msg : String) : String :=
  let low := lowerStr msg
  if strContains msg "401" || strContains low "unauthorized" then authMsg
  else if strContains msg "403" || strContains low "forbidden" then accessMsg
  else if strContains low "connection" || strContains low "timeout" then netMsg
  else if strContains low "resolve" || strContains low "dns" then dnsMsg
  else msg

/-- The `DownloadProgress` dataclass.  `downloaded_bytes` and `total_bytes`
are Python `int`s, `speed_bps` a float. -/
structure DownloadProgress where
  model_id : String
  downloaded_bytes : ℤ
  total_bytes : ℤ
  speed_bps : ℚ
  deriving DecidableEq

/-- `DownloadProgress.progress`: 0 when the total is unknown (`<= 0`),
otherwise `min(1.0, downloaded_bytes / total_bytes)`. -/
def DownloadProgress.progress (p : DownloadProgress) : ℚ :=
  if p.total_bytes ≤ 0 then 0
  else min 1 ((p.downloaded_bytes : ℚ) / (p.total_bytes : ℚ))

/-- The `DownloadResult` dataclass. -/
structure DownloadResult where
  success : Bool
  model_id : String
  path : Option FsPath := none
  error : Option String := none
  deriving DecidableEq

/-- The speed-smoothing kernel of `DownloadProgressTqdm.update`
(lines 127–131): when the stored smoothed speed is `0` the instantaneous
sample is taken as the new value (seeding), otherwise an exponential moving
average with factor 0.3 is applied. -/
def speedStep (smoothed instant : ℚ) : ℚ :=
  if smoothed = 0 then instant else 3/10 * instant + 7/10 * smoothed

/-- The sequence of smoothed speeds reported by the code, starting from a
stored smoothed speed `s0`, over a list of instantaneous samples. -/
def reportedSpeedsFrom (s0 : ℚ) : List ℚ → List ℚ
  | [] => []
  | x :: xs => speedStep s0 x :: reportedSpeedsFrom (speedStep s0 x) xs

/-- The smoothed speeds reported over one transfer: the stored smoothed
speed starts at `0` (`self._smoothed_speed = 0.0` in `__init__`). -/
def reportedSpeeds (samples : List ℚ) : List ℚ := reportedSpeedsFrom 0 samples

/-- Modelled from the claim's words, for comparison with `reportedSpeeds`:
the plain exponential moving average whose every step after the first is
`0.3 * instant + 0.7 * previous`. -/
def emaSpecFrom (prev : ℚ) : List ℚ → List ℚ
  | [] => []
  | x :: xs => (3/10 * x + 7/10 * prev) :: emaSpecFrom (3/10 * x + 7/10 * prev) xs

/-- Modelled from the claim's words: EMA seeded by the first instantaneous
sample. -/
def emaSpec : List ℚ → List ℚ
  | [] => []
  | x :: xs => x :: emaSpecFrom x xs

/-- The mutable fields of `DownloadProgressTqdm` touched by `update`. -/
structure TqdmState where
  n : ℤ
  lastUpdateTime : ℚ
  lastBytes : ℤ
  smoothedSpeed : ℚ
  deriving DecidableEq

/-- Python truthiness of `self.total` (`None` or `0` are falsy). -/
def truthyTotal : Option ℤ → Bool
  | none => false
  | some t => decide (t ≠ 0)

/-- `DownloadProgressTqdm.update` (lines 110–143).  `.error ()` models the
`DownloadCancelledException` raised when the cancel flag is set; otherwise
the new state and the progress value passed to the callback (if any) are
returned.  `now` is the value of `time.time()`, `chunk` the argument `n`. -/
def tqdmUpdate (mid : String) (total : Option ℤ) (hasCallback cancelRequested : Bool)
    (now : ℚ) (chunk : ℤ) (s : TqdmState) :
    Except Unit (TqdmState × Option DownloadProgress) :=
  if cancelRequested then .error ()
  else
    let n1 := s.n + chunk
    if hasCallback && truthyTotal total then
      let elapsed := now - s.lastUpdateTime
      if decide ((1 : ℚ)/4 ≤ elapsed) then
        let delta := n1 - s.lastBytes
        let instant : ℚ := if 0 < elapsed then (delta : ℚ) / elapsed else 0
        let sm := speedStep s.smoothedSpeed instant
        .ok (⟨n1, now, n1, sm⟩, some ⟨mid, n1, total.getD 0, sm⟩)
      else .ok (⟨n1, s.lastUpdateTime, s.lastBytes, s.smoothedSpeed⟩, none)
    else .ok (⟨n1, s.lastUpdateTime, s.lastBytes, s.smoothedSpeed⟩, none)

/-- The progress value `update` handed to the callback, if any. -/
def emitted (r : Except Unit (TqdmState × Option DownloadProgress)) :
    Option DownloadProgress :=
  match r with
  | .ok (_, p) => p
  | .error _ => none

/-- The downloader's own mutable state (`_current_download`,
`_cancel_requested`). -/
structure DState where
  current_download : Option String
  cancel_requested : Bool
  deriving DecidableEq

/-- `ModelDownloader.is_downloading`. -/
def is_downloading (d : DState) : Bool := d.current_download.isSome

/-- The outcome of the `hf_hub_download` call seen by `download`'s
`try` block: a delivered file name, or one of the three caught
exception shapes. -/
inductive FetchOutcome
  | ok (deliveredName : String)
  | cancelled
  | entryMissing
  | exn (msg : String)
  deriving DecidableEq

/-- Filesystem side effects performed by `download`. -/
inductive FsEffect
  | mkdir (p : FsPath)
  | unlink (p : FsPath)
  | rename (src dst : FsPath)
  deriving DecidableEq

/-- Exceptions that can escape `download` (raised outside its
`try`/`except`). -/
inductive PyExn
  | osError
  | fileExists
  deriving DecidableEq

/-- The environment of one `download` invocation: everything the external
world decides. -/
structure DownloadEnv where
  /-- `HF_AVAILABLE` (the optional import succeeded). -/
  hf_available : Bool
  /-- `shutil.disk_usage(models_dir)` succeeds; it raises (e.g.
  `FileNotFoundError` when the models root does not exist) when false. -/
  disk_usage_ok : Bool
  /-- Free space in MB reported by `get_disk_space_mb`. -/
  free_mb : ℚ
  /-- Filesystem snapshot when `download` starts. -/
  fs : FS
  /-- What `hf_hub_download` does. -/
  fetch : FetchOutcome
  /-- `downloaded_path.stat().st_size` on success. -/
  file_size : ℤ
  /-- Whether `cancel_download()` is called at some point during the
  transfer. -/
  cancelDuring : Bool
  deriving DecidableEq

/-- Everything observable about one `download` invocation. -/
structure DownloadOutcome where
  /-- The returned result, or the exception that escaped. -/
  result : Except PyExn DownloadResult
  /-- Downloader state after the call. -/
  state : DState
  /-- Filesystem after the call. -/
  fs : FS
  /-- Side effects, in order. -/
  effects : List FsEffect
  /-- The final completion progress callback (line 259–266); the chunk-loop
  callbacks are modelled by `tqdmUpdate`. -/
  finalProgress : List DownloadProgress

/-- `ModelDownloader.download` (lines 192–308), translated branch by
branch.  `Path.mkdir(parents=True, exist_ok=True)` raises
`FileExistsError` when a non-directory occupies the target path
(`exist_ok` only suppresses the error for existing directories); that call
and the `shutil.disk_usage` query sit outside the `try`, so their
exceptions escape as `.error`. -/
def download (models_dir : FsPath) (m : ModelInfo) (hasProgressCb : Bool)
    (d : DState) (env : DownloadEnv) : DownloadOutcome :=
  if env.hf_available = false then
    { result := .ok { success := false, model_id := m.id, error := some hfMissingMsg }
      state := d, fs := env.fs, effects := [], finalProgress := [] }
  else if env.disk_usage_ok = false then
    { result := .error .osError
      state := d, fs := env.fs, effects := [], finalProgress := [] }
  else if check_disk_space env.free_mb m.size_mb = false then
    let spaceMsg := "Not enough disk space. Need " ++ toString m.size_mb
        ++ "MB, have " ++ fmtDot0 env.free_mb ++ "MB free"
    { result := .ok { success := false, model_id := m.id, error := some spaceMsg }
      state := d, fs := env.fs, effects := [], finalProgress := [] }
  else
    let target_dir := models_dir ++ [m.type.value]
    if memB target_dir env.fs.files then
      { result := .error .fileExists
        state := d, fs := env.fs, effects := [], finalProgress := [] }
    else
      let fs0 : FS :=
        if memB target_dir env.fs.dirs then env.fs
        else ⟨env.fs.files, target_dir :: env.fs.dirs⟩
      let mkEff : List FsEffect :=
        if memB target_dir env.fs.dirs then [] else [.mkdir target_dir]
      let local_filename := m.get_local_filename
      let target_path := target_dir ++ [local_filename]
      let dFinal : DState := ⟨none, env.cancelDuring⟩
      match env.fetch with
      | .cancelled =>
        { result := .ok { success := false, model_id := m.id, error := some "Download cancelled" }
          state := dFinal, fs := fs0, effects := mkEff, finalProgress := [] }
      | .entryMissing =>
        { result := .ok { success := false, model_id := m.id, error := some notFoundMsg }
          state := dFinal, fs := fs0, effects := mkEff, finalProgress := [] }
      | .exn msg =>
        { result := .ok { success := false, model_id := m.id, error := some (classify_error msg) }
          state := dFinal, fs := fs0, effects := mkEff, finalProgress := [] }
      | .ok delivered =>
        let downloaded_path := target_dir ++ [delivered]
        let fs1 := FS.addFile fs0 downloaded_path
        let final : List DownloadProgress :=
          if hasProgressCb then [⟨m.id, env.file_size, env.file_size, 0⟩] else []
        if delivered ≠ local_filename then
          let hadOld := FS.existsPath fs1 target_path
          let fs2 := if hadOld then FS.unlink fs1 target_path else fs1
          let fs3 := FS.renameFile fs2 downloaded_path target_path
          { result := .ok { success := true, model_id := m.id, path := some target_path }
            state := dFinal, fs := fs3
            effects := mkEff ++ (if hadOld then [.unlink target_path] else [])
              ++ [.rename downloaded_path target_path]
            finalProgress := final }
        else
          { result := .ok { success := true, model_id := m.id, path := some downloaded_path }
            state := dFinal, fs := fs1, effects := mkEff, finalProgress := final }

/-- The body of the worker thread spawned by
`ModelDownloader.download_async` (lines 326–329): run `download`; when it
returns and a completion callback was supplied, invoke it once with the
result.  Returns the outcome and the list of arguments the completion
callback was invoked with; when `download` raises, the thread dies with
the exception and the callback is never invoked. -/
def download_async_run (models_dir : FsPath) (m : ModelInfo)
    (hasProgressCb hasCompleteCb : Bool) (d : DState) (env : DownloadEnv) :
    DownloadOutcome × List DownloadResult :=
  let o := download models_dir m hasProgressCb d env
  match o.result with
  | .ok r => (o, if hasCompleteCb then [r] else [])
  | .error _ => (o, [])

/-- A fresh downloader. -/
def d0 : DState := ⟨none, false⟩

/-- Environment exhibiting the escaping-exception fault: the backend is
available, disk space is ample, but a regular file occupies
`models/checkpoints`, so `Path.mkdir` raises `FileExistsError`. -/
def envMkdirClash : DownloadEnv :=
  { hf_available := true
    disk_usage_ok := true
    free_mb := 100000
    fs := ⟨[["models", "checkpoints"]], [["models"]]⟩
    fetch := .ok "v1-5-pruned-emaonly.safetensors"
    file_size := 0
    cancelDuring := false }

/-- Environment for the insufficient-space scenario: 4000 MB free. -/
def envNoSpace : DownloadEnv :=
  { hf_available := true
    disk_usage_ok := true
    free_mb := 4000
    fs := ⟨[], [["models"]]⟩
    fetch := .ok "v1-5-pruned-emaonly.safetensors"
    file_size := 0
    cancelDuring := false }

/-- Environment where the transfer observes the cancellation flag. -/
def envCancel : DownloadEnv :=
  { hf_available := true
    disk_usage_ok := true
    free_mb := 100000
    fs := ⟨[], [["models"]]⟩
    fetch := .cancelled
    file_size := 0
    cancelDuring := true }

/-- Environment for a successful transfer whose delivered name
(`model.safetensors`) differs from the catalog's local filename, with a
stale copy of the target already on disk. -/
def envRename : DownloadEnv :=
  { hf_available := true
    disk_usage_ok := true
    free_mb := 100000
    fs := ⟨[["models", "clip_vision", "clip_vit_l.safetensors"]],
           [["models"], ["models", "clip_vision"]]⟩
    fetch := .ok "model.safetensors"
    file_size := 10
    cancelDuring := false }

/-- The first condition tested by `classify_error`. -/
def cond401 (msg : String) : Bool :=
  strContains msg "401" || strContains (lowerStr msg) "unauthorized"

/-- The second condition tested by `classify_error`. -/
def cond403 (msg : String) : Bool :=
  strContains msg "403" || strContains (lowerStr msg) "forbidden"

/-- The third condition tested by `classify_error`. -/
def condNet (msg : String) : Bool :=
  strContains (lowerStr msg) "connection" || strContains (lowerStr msg) "timeout"

/-- The fourth condition tested by `classify_error`. -/
def condDns (msg : String) : Bool :=
  strContains (lowerStr msg) "resolve" || strContains (lowerStr msg) "dns"

theorem strContains_true_of (hay needle : String) (h : needle.data <:+: hay.data) :
    strContains hay needle = true := by
  simp [strContains, h]

/-- C2 counterexample: `is_model_installed` is implemented with
`Path.exists()`, which is also true for a directory, so a directory at
`models/clip_vision/clip_vit_l.safetensors` makes it return true although
no regular file is there. -/
theorem is_model_installed_counts_directory :
    is_model_installed clip_vit_l
        ⟨[], [["models", "clip_vision", "clip_vit_l.safetensors"]]⟩ ["models"] = true
    ∧ FS.isFile ⟨[], [["models", "clip_vision", "clip_vit_l.safetensors"]]⟩
        ((["models"] ++ [clip_vit_l.type.value]) ++ [clip_vit_l.get_local_filename]) = false := by
  decide

/-- C2 (amended): `is_model_installed entry modelsRoot` is true exactly when
`modelsRoot/<type dirname>/<local filename>` exists as a regular file OR a
directory, the local filename being the entry's override when given
(non-empty), otherwise its remote filename. -/
theorem is_model_installed_iff_exists (m : ModelInfo) (fs : FS) (models_dir : FsPath) :
    is_model_installed m fs models_dir = true ↔
      ((models_dir ++ [m.type.value]) ++ [m.get_local_filename]) ∈ fs.files
      ∨ ((models_dir ++ [m.type.value]) ++ [m.get_local_filename]) ∈ fs.dirs := by
  simp [is_model_installed, FS.existsPath, memB]

/-- C3: the disk-space preflight returns true iff `free_mb ≥ size_mb + 500`,
in particular true at exactly `size_mb + 500` and false at `size_mb + 499`. -/
theorem check_disk_space_spec (size : ℤ) (_h : (0 : ℤ) ≤ size) :
    (∀ free : ℚ, check_disk_space free size = true ↔ (size : ℚ) + 500 ≤ free)
    ∧ check_disk_space ((size : ℚ) + 500) size = true
    ∧ check_disk_space ((size : ℚ) + 499) size = false := by
  refine ⟨fun free => by simp [check_disk_space], by simp [check_disk_space], ?_⟩
  simp only [check_disk_space, decide_eq_false_iff_not]
  intro hc
  linarith

theorem check_disk_space_spec_witness :
    (0 : ℤ) ≤ 5000 ∧ check_disk_space ((5000 : ℚ) + 500) 5000 = true
    ∧ check_disk_space ((5000 : ℚ) + 499) 5000 = false :=
  ⟨by norm_num, (check_disk_space_spec 5000 (by norm_num)).2.1,
    (check_disk_space_spec 5000 (by norm_num)).2.2⟩

/-- C4 counterexample: the substring categories are not independent
mappings — the branches are tried in order, so a message that contains both
"unauthorized" and "forbidden" gets the authentication message although the
claim's 403/forbidden clause promises the access-denied message. -/
theorem classify_error_priority_counterexample :
    strContains (lowerStr "unauthorized forbidden") "forbidden" = true
    ∧ classify_error "unauthorized forbidden" = authMsg
    ∧ authMsg ≠ accessMsg := by
  refine ⟨by decide, by decide, by decide⟩

/-- C4 (amended): the four substring categories are tested in the listed
priority order — 401/unauthorized first, then 403/forbidden, then
connection/timeout, then resolve/dns — the first match determines the
guidance string, and the raw error text is surfaced as-is when none
match. -/
theorem classify_error_spec (msg : String) :
    (cond401 msg = true → classify_error msg = authMsg)
    ∧ (cond401 msg = false → cond403 msg = true → classify_error msg = accessMsg)
    ∧ (cond401 msg = false → cond403 msg = false → condNet msg = true →
        classify_error msg = netMsg)
    ∧ (cond401 msg = false → cond403 msg = false → condNet msg = false →
        condDns msg = true → classify_error msg = dnsMsg)
    ∧ (cond401 msg = false → cond403 msg = false → condNet msg = false →
        condDns msg = false → classify_error msg = msg) := by
  refine ⟨?_, ?_, ?_, ?_, ?_⟩
  · intro h1
    simp only [cond401] at h1
    simp [classify_error, h1]
  · intro h1 h2
    simp only [cond401] at h1
    simp only [cond403] at h2
    simp [classify_error, h1, h2]
  · intro h1 h2 h3
    simp only [cond401] at h1
    simp only [cond403] at h2
    simp only [condNet] at h3
    simp [classify_error, h1, h2, h3]
  · intro h1 h2 h3 h4
    simp only [cond401] at h1
    simp only [cond403] at h2
    simp only [condNet] at h3
    simp only [condDns] at h4
    simp [classify_error, h1, h2, h3, h4]
  · intro h1 h2 h3 h4
    simp only [cond401] at h1
    simp only [cond403] at h2
    simp only [condNet] at h3
    simp only [condDns] at h4
    simp [classify_error, h1, h2, h3, h4]

theorem classify_error_spec_witness :
    cond401 "403 Forbidden" = false ∧ cond403 "403 Forbidden" = true
    ∧ classify_error "403 Forbidden" = accessMsg :=
  ⟨by decide, by decide,
    (classify_error_spec "403 Forbidden").2.1 (by decide) (by decide)⟩

/-- C8 counterexample: the dataclass fields are Python ints, and for a
negative `downloaded_bytes` the derived fraction is negative, outside
[0,1]. -/
theorem progress_negative_counterexample :
    DownloadProgress.progress ⟨"m", -1, 1, 0⟩ < 0 := by
  norm_num [DownloadProgress.progress]

/-- C8 (amended): whenever `downloaded_bytes ≥ 0`, the derived fraction
lies in [0,1]; it equals 0 whenever `total_bytes ≤ 0` and otherwise equals
`downloaded_bytes / total_bytes` clamped from above to 1. -/
theorem progress_bounds_spec (p : DownloadProgress) (h : 0 ≤ p.downloaded_bytes) :
    (0 ≤ p.progress ∧ p.progress ≤ 1)
    ∧ (p.total_bytes ≤ 0 → p.progress = 0)
    ∧ (0 < p.total_bytes →
        p.progress = min 1 ((p.downloaded_bytes : ℚ) / (p.total_bytes : ℚ))) := by
  unfold DownloadProgress.progress
  by_cases ht : p.total_bytes ≤ 0
  · rw [if_pos ht]
    refine ⟨⟨le_refl 0, by norm_num⟩, fun _ => rfl, fun hlt => absurd hlt (not_lt.mpr ht)⟩
  · rw [if_neg ht]
    push_neg at ht
    have hd : (0 : ℚ) ≤ (p.downloaded_bytes : ℚ) / (p.total_bytes : ℚ) :=
      div_nonneg (by exact_mod_cast h) (by exact_mod_cast le_of_lt ht)
    exact ⟨⟨le_min (by norm_num) hd, min_le_left _ _⟩,
      fun hle => absurd ht (not_lt.mpr hle), fun _ => rfl⟩

theorem progress_bounds_spec_witness :
    (0 : ℤ) ≤ 5 ∧ 0 ≤ DownloadProgress.progress ⟨"m", 5, 10, 0⟩
    ∧ DownloadProgress.progress ⟨"m", 5, 10, 0⟩ ≤ 1 :=
  ⟨by norm_num, (progress_bounds_spec ⟨"m", 5, 10, 0⟩ (by norm_num)).1.1,
    (progress_bounds_spec ⟨"m", 5, 10, 0⟩ (by norm_num)).1.2⟩

/-- C9 counterexample: the code re-seeds whenever the stored smoothed speed
is still 0 (`if self._smoothed_speed == 0`), so after a first sample of 0
the second reported speed is the raw second sample (10), not the claimed
EMA value `0.3*10 + 0.7*0 = 3`. -/
theorem reported_speeds_reseed_counterexample :
    reportedSpeeds [0, 10] = [0, 10] ∧ emaSpec [0, 10] = [0, 3]
    ∧ reportedSpeeds [0, 10] ≠ emaSpec [0, 10] := by
  refine ⟨?_, ?_, ?_⟩ <;>
    norm_num [reportedSpeeds, reportedSpeedsFrom, speedStep, emaSpec, emaSpecFrom]

theorem reportedSpeedsFrom_pos (xs : List ℚ) : ∀ s0 : ℚ, 0 < s0 → (∀ x ∈ xs, 0 ≤ x) →
    reportedSpeedsFrom s0 xs = emaSpecFrom s0 xs := by
  induction xs with
  | nil => intro s0 _ _; rfl
  | cons x xs ih =>
    intro s0 hs hx
    have hx0 : (0 : ℚ) ≤ x := hx x (by simp)
    have hstep : speedStep s0 x = 3/10 * x + 7/10 * s0 := by
      unfold speedStep
      rw [if_neg (ne_of_gt hs)]
    have hpos : (0 : ℚ) < 3/10 * x + 7/10 * s0 :=
      add_pos_of_nonneg_of_pos (mul_nonneg (by norm_num) hx0) (mul_pos (by norm_num) hs)
    simp only [reportedSpeedsFrom, emaSpecFrom, hstep]
    exact congrArg (List.cons _) (ih _ hpos (fun y hy => hx y (List.mem_cons_of_mem _ hy)))

/-- C9 (amended): provided every instantaneous sample is positive (some
bytes arrived in every ≥250 ms sampling window), the reported smoothed
speeds are exactly the EMA of the claim: seeded by the first sample, then
`0.3 * instant + 0.7 * previous`.  (With a zero sample the code re-seeds
instead, see the counterexample.) -/
theorem reported_speeds_ema_spec (samples : List ℚ) (h : ∀ x ∈ samples, 0 < x) :
    reportedSpeeds samples = emaSpec samples := by
  cases samples with
  | nil => rfl
  | cons a xs =>
    have ha : 0 < a := h a (by simp)
    have hstep : speedStep 0 a = a := by simp [speedStep]
    simp only [reportedSpeeds, reportedSpeedsFrom, emaSpec, hstep]
    exact congrArg (List.cons a) (reportedSpeedsFrom_pos xs a ha
      (fun y hy => le_of_lt (h y (List.mem_cons_of_mem _ hy))))

theorem reported_speeds_ema_spec_witness :
    (∀ x ∈ ([4, 8] : List ℚ), 0 < x) ∧ reportedSpeeds [4, 8] = emaSpec [4, 8] :=
  ⟨by norm_num, reported_speeds_ema_spec [4, 8] (by norm_num)⟩

/-- C10: when the tqdm total is unset or 0, `update` never hands a progress
value to the callback — intermediate progress with unknown total is never
emitted. -/
theorem no_progress_when_total_unknown (mid : String) (total : Option ℤ)
    (cb cancel : Bool) (now : ℚ) (chunk : ℤ) (s : TqdmState)
    (htot : truthyTotal total = false) :
    emitted (tqdmUpdate mid total cb cancel now chunk s) = none := by
  unfold tqdmUpdate emitted
  cases cancel <;> simp [htot]

theorem no_progress_when_total_unknown_witness :
    truthyTotal (some 0) = false
    ∧ emitted (tqdmUpdate "m" (some 0) true false 1 5 ⟨0, 0, 0, 0⟩) = none :=
  ⟨by decide,
    no_progress_when_total_unknown "m" (some 0) true false 1 5 ⟨0, 0, 0, 0⟩ (by decide)⟩

/-- C1 (code bug): with the backend available and ample disk space, a
regular file occupying `models/checkpoints` makes `Path.mkdir` — which sits
outside the `try`/`except` — raise `FileExistsError`; the exception escapes
`download`, and the worker of `download_async` therefore never invokes the
completion callback (zero invocations instead of exactly one). -/
theorem download_mkdir_fault_escapes :
    (download ["models"] sd15_base true d0 envMkdirClash).result = .error .fileExists
    ∧ (download_async_run ["models"] sd15_base true true d0 envMkdirClash).2 = [] := by
  have h3 : check_disk_space (100000 : ℚ) 4270 = true := by
    simp only [check_disk_space, decide_eq_true_eq]
    norm_num
  constructor
  · simp [download, envMkdirClash, sd15_base, h3, memB, ModelType.value]
  · simp [download_async_run, download, envMkdirClash, sd15_base, h3, memB, ModelType.value]

/-- C5: if the cancellation flag is observed during the transfer, `download`
returns `success=false` with error text exactly "Download cancelled"; and
after every invocation that returns (this and every other terminal
outcome), `is_downloading` is false. -/
theorem download_cancelled_spec (models_dir : FsPath) (m : ModelInfo) (pc : Bool)
    (d : DState) (env : DownloadEnv) (hd : d.current_download = none) :
    ((env.hf_available = true ∧ env.disk_usage_ok = true
        ∧ check_disk_space env.free_mb m.size_mb = true
        ∧ memB (models_dir ++ [m.type.value]) env.fs.files = false
        ∧ env.fetch = .cancelled) →
      (download models_dir m pc d env).result
        = .ok { success := false, model_id := m.id, error := some "Download cancelled" })
    ∧ (∀ r, (download models_dir m pc d env).result = .ok r →
        is_downloading (download models_dir m pc d env).state = false) := by
  constructor
  · rintro ⟨h1, h2, h3, h4, h5⟩
    simp [download, h1, h2, h3, h4, h5]
  · intro r hr
    by_cases c1 : env.hf_available = false
    · simp [download, c1, is_downloading, hd]
    · by_cases c2 : env.disk_usage_ok = false
      · exfalso
        simp [download, c1, c2] at hr
      · by_cases c3 : check_disk_space env.free_mb m.size_mb = false
        · simp [download, c1, c2, c3, is_downloading, hd]
        · by_cases c4 : memB (models_dir ++ [m.type.value]) env.fs.files = true
          · exfalso
            simp [download, c1, c2, c3, c4] at hr
          · cases hf : env.fetch with
            | ok delivered =>
              simp only [download, if_neg c1, if_neg c2, if_neg c3, if_neg c4, hf]
              split <;> simp [is_downloading]
            | cancelled => simp [download, c1, c2, c3, c4, hf, is_downloading]
            | entryMissing => simp [download, c1, c2, c3, c4, hf, is_downloading]
            | exn msg => simp [download, c1, c2, c3, c4, hf, is_downloading]

theorem download_cancelled_spec_witness :
    d0.current_download = none
    ∧ (download ["models"] sd15_base false d0 envCancel).result
        = .ok { success := false, model_id := sd15_base.id, error := some "Download cancelled" }
    ∧ is_downloading (download ["models"] sd15_base false d0 envCancel).state = false := by
  have hd : d0.current_download = none := rfl
  have hg : envCancel.hf_available = true ∧ envCancel.disk_usage_ok = true
      ∧ check_disk_space envCancel.free_mb sd15_base.size_mb = true
      ∧ memB (["models"] ++ [sd15_base.type.value]) envCancel.fs.files = false
      ∧ envCancel.fetch = .cancelled := by
    refine ⟨rfl, rfl, ?_, by decide, rfl⟩
    simp only [envCancel, sd15_base, check_disk_space, decide_eq_true_eq]
    norm_num
  have h1 := (download_cancelled_spec ["models"] sd15_base false d0 envCancel hd).1 hg
  exact ⟨hd, h1,
    (download_cancelled_spec ["models"] sd15_base false d0 envCancel hd).2 _ h1⟩

/-- C6: when the disk-space check fails, `download` returns `success=false`
before any I/O — the error text contains the required size and the
reported free space, and no filesystem effect (in particular no directory
creation) has happened. -/
theorem download_disk_fail_spec (models_dir : FsPath) (m : ModelInfo) (pc : Bool)
    (d : DState) (env : DownloadEnv)
    (h1 : env.hf_available = true) (h2 : env.disk_usage_ok = true)
    (h3 : check_disk_space env.free_mb m.size_mb = false) :
    ∃ e, (download models_dir m pc d env).result
        = .ok { success := false, model_id := m.id, error := some e }
      ∧ strContains e (toString m.size_mb) = true
      ∧ strContains e (fmtDot0 env.free_mb) = true
      ∧ (download models_dir m pc d env).effects = []
      ∧ (download models_dir m pc d env).fs = env.fs := by
  refine ⟨"Not enough disk space. Need " ++ toString m.size_mb
      ++ "MB, have " ++ fmtDot0 env.free_mb ++ "MB free", ?_, ?_, ?_, ?_, ?_⟩
  · simp [download, h1, h2, h3]
  · apply strContains_true_of
    refine ⟨"Not enough disk space. Need ".data,
      ("MB, have " ++ fmtDot0 env.free_mb ++ "MB free").data, ?_⟩
    simp [String.data_append]
  · apply strContains_true_of
    refine ⟨("Not enough disk space. Need " ++ toString m.size_mb ++ "MB, have ").data,
      "MB free".data, ?_⟩
    simp [String.data_append]
  · simp [download, h1, h2, h3]
  · simp [download, h1, h2, h3]

theorem download_disk_fail_spec_witness :
    envNoSpace.hf_available = true ∧ envNoSpace.disk_usage_ok = true
    ∧ check_disk_space envNoSpace.free_mb sd15_base.size_mb = false
    ∧ ∃ e, (download ["models"] sd15_base false d0 envNoSpace).result
        = .ok { success := false, model_id := sd15_base.id, error := some e }
      ∧ strContains e (toString sd15_base.size_mb) = true
      ∧ strContains e (fmtDot0 envNoSpace.free_mb) = true
      ∧ (download ["models"] sd15_base false d0 envNoSpace).effects = []
      ∧ (download ["models"] sd15_base false d0 envNoSpace).fs = envNoSpace.fs := by
  have h3 : check_disk_space envNoSpace.free_mb sd15_base.size_mb = false := by
    simp only [envNoSpace, sd15_base, check_disk_space, decide_eq_false_iff_not]
    norm_num
  exact ⟨rfl, rfl, h3, download_disk_fail_spec ["models"] sd15_base false d0 envNoSpace rfl rfl h3⟩

/-- C7: on a successful transfer the path in the result is always
`<type dir>/<configured local filename>`; when the delivered name differs,
the artifact is renamed there (recorded rename effect), any pre-existing
file at that path is unlinked first, and no file under the delivered name
remains; when the names match, no rename occurs. -/
theorem download_rename_spec (models_dir : FsPath) (m : ModelInfo) (pc : Bool)
    (d : DState) (env : DownloadEnv) (delivered : String)
    (h1 : env.hf_available = true) (h2 : env.disk_usage_ok = true)
    (h3 : check_disk_space env.free_mb m.size_mb = true)
    (h4 : memB (models_dir ++ [m.type.value]) env.fs.files = false)
    (h5 : env.fetch = .ok delivered) :
    (download models_dir m pc d env).result
      = .ok { success := true, model_id := m.id, path := some ((models_dir ++ [m.type.value]) ++ [m.get_local_filename]) }
    ∧ FS.isFile (download models_dir m pc d env).fs
        ((models_dir ++ [m.type.value]) ++ [m.get_local_filename]) = true
    ∧ (delivered ≠ m.get_local_filename →
        FS.isFile (download models_dir m pc d env).fs
            ((models_dir ++ [m.type.value]) ++ [delivered]) = false
        ∧ FsEffect.rename ((models_dir ++ [m.type.value]) ++ [delivered])
            ((models_dir ++ [m.type.value]) ++ [m.get_local_filename])
            ∈ (download models_dir m pc d env).effects
        ∧ (FS.isFile env.fs ((models_dir ++ [m.type.value]) ++ [m.get_local_filename]) = true →
            FsEffect.unlink ((models_dir ++ [m.type.value]) ++ [m.get_local_filename])
              ∈ (download models_dir m pc d env).effects))
    ∧ (delivered = m.get_local_filename →
        ∀ src dst, FsEffect.rename src dst ∉ (download models_dir m pc d env).effects) := by
  have h4m : (models_dir ++ [m.type.value]) ∉ env.fs.files := by
    simpa [memB] using h4
  by_cases hdl : delivered = m.get_local_filename
  · subst hdl
    refine ⟨?_, ?_, fun hcon => absurd rfl hcon, fun _ src dst => ?_⟩
    · simp [download, h1, h2, h3, h4, h4m, h5]
    · simp [download, h1, h2, h3, h4, h4m, h5, FS.addFile, FS.isFile, memB]
    · simp [download, h1, h2, h3, h4, h4m, h5, FS.addFile]
  · have hne : models_dir ++ [m.type.value, delivered]
        ≠ models_dir ++ [m.type.value, m.get_local_filename] := by
      intro he
      have hc := List.append_cancel_left he
      simp only [List.cons.injEq] at hc
      exact hdl hc.2.1
    refine ⟨?_, ?_, fun _ => ⟨?_, ?_, ?_⟩, fun hcon => absurd hcon hdl⟩
    · simp [download, h1, h2, h3, h4, h4m, h5, hdl]
    · simp [download, h1, h2, h3, h4, h4m, h5, hdl, FS.renameFile, FS.isFile, memB]
    · simp [download, h1, h2, h3, h4, h4m, h5, hdl, FS.renameFile, FS.isFile, memB,
        FS.unlink, FS.addFile, List.mem_filter, hne]
    · simp [download, h1, h2, h3, h4, h4m, h5, hdl]
    · intro hpre
      simp only [FS.isFile, memB, decide_eq_true_eq, List.append_assoc,
        List.cons_append, List.nil_append] at hpre
      by_cases hdirB : memB (models_dir ++ [m.type.value]) env.fs.dirs = true
      · have hdir : (models_dir ++ [m.type.value]) ∈ env.fs.dirs := by
          simpa [memB] using hdirB
        simp [download, h1, h2, h3, h4, h4m, h5, hdl, hdirB, hdir, FS.addFile,
          FS.existsPath, memB, List.mem_cons, hpre]
      · have hdir : (models_dir ++ [m.type.value]) ∉ env.fs.dirs := by
          simpa [memB] using hdirB
        simp [download, h1, h2, h3, h4, h4m, h5, hdl, hdirB, hdir, FS.addFile,
          FS.existsPath, memB, List.mem_cons, hpre]

theorem download_rename_spec_witness :
    envRename.fetch = FetchOutcome.ok "model.safetensors"
    ∧ "model.safetensors" ≠ clip_vit_l.get_local_filename
    ∧ (download ["models"] clip_vit_l false d0 envRename).result
        = .ok { success := true, model_id := clip_vit_l.id, path := some ["models", "clip_vision", "clip_vit_l.safetensors"] }
    ∧ FS.isFile (download ["models"] clip_vit_l false d0 envRename).fs
        ["models", "clip_vision", "clip_vit_l.safetensors"] = true
    ∧ FS.isFile (download ["models"] clip_vit_l false d0 envRename).fs
        ["models", "clip_vision", "model.safetensors"] = false
    ∧ FsEffect.rename ["models", "clip_vision", "model.safetensors"]
        ["models", "clip_vision", "clip_vit_l.safetensors"]
        ∈ (download ["models"] clip_vit_l false d0 envRename).effects
    ∧ FsEffect.unlink ["models", "clip_vision", "clip_vit_l.safetensors"]
        ∈ (download ["models"] clip_vit_l false d0 envRename).effects := by
  have h3 : check_disk_space envRename.free_mb clip_vit_l.size_mb = true := by
    simp only [envRename, clip_vit_l, check_disk_space, decide_eq_true_eq]
    norm_num
  have hT := download_rename_spec ["models"] clip_vit_l false d0 envRename
    "model.safetensors" rfl rfl h3 (by decide) rfl
  have hdl : "model.safetensors" ≠ clip_vit_l.get_local_filename := by decide
  have hpre : FS.isFile envRename.fs ((["models"] ++ [clip_vit_l.type.value]) ++ [clip_vit_l.get_local_filename]) = true := by decide
  refine ⟨rfl, hdl, ?_, ?_, ?_, ?_, ?_⟩
  · exact hT.1
  · exact hT.2.1
  · exact (hT.2.2.1 hdl).1
  · exact (hT.2.2.1 hdl).2.1
  · exact (hT.2.2.1 hdl).2.2 hpre

end Switchgen
